import Mathlib

/-!
Shallow embedding of `src/datasets/features/image.py`: the `Image` feature
descriptor, the `_ImageExtensionType` extension-type wrapper, and the
value-level encode/decode functions, with proofs of the specification's
claims about them.

Python values flowing through `encode_example` / `decode_example` are
modelled by the inductive `PyValue`; Python exceptions by `PyErr` inside
`Except`.  The two external collaborators (the PIL image codec and the
`xopen` file-opening utility from `..utils.streaming_download_manager`,
neither of which is part of the measured source) are passed to
`decode_example` as parameters; a concrete lossless PNG codec model is
provided for the round-trip property.
-/

namespace Datasets

/-- Physical primitive columnar types (`pa.string()`, `pa.binary()`). -/
inductive PaPrim where
  | paString
  | paBinary
deriving DecidableEq

/-- Physical columnar storage types chosen by `_ImageExtensionType.__init__`:
`pa.string()`, `pa.binary()`, or `pa.struct({...})` over primitives. -/
inductive PaType where
  | prim (p : PaPrim)
  | paStruct (fields : List (String × PaPrim))
deriving DecidableEq

/-- The extension-type wrapper `_ImageExtensionType`: pairs the chosen
physical storage type with the persistent logical class tag (the Python
class identity, rendered here as the constant tag field). -/
structure ImageExtensionType where
  storage_dtype : String
  pa_storage_dtype : PaType
  logicalTag : String
deriving DecidableEq

/-- Constructor `_ImageExtensionType.__init__(self, storage_dtype)`:
maps `"string"` to `pa.string()`, `"bytes"` to `pa.binary()`, and anything
else to `pa.struct({"path": pa.string(), "bytes": pa.binary()})`. -/
def mkImageExtensionType (storage_dtype : String) : ImageExtensionType :=
  { storage_dtype := storage_dtype,
    pa_storage_dtype :=
      if storage_dtype = "string" then PaType.prim PaPrim.paString
      else if storage_dtype = "bytes" then PaType.prim PaPrim.paBinary
      else PaType.paStruct [("path", PaPrim.paString), ("bytes", PaPrim.paBinary)],
    logicalTag := "Image" }

/-- Serialization payload of `_ImageExtensionType.__reduce__`: the 1-tuple
`(self.storage_dtype,)`; reconstruction applies the class (that is,
`mkImageExtensionType`) to this payload. -/
def ImageExtensionType.reduce (t : ImageExtensionType) : String :=
  t.storage_dtype

/-- Python values that flow through the image feature's encode and decode:
path strings, byte blobs, numpy arrays, dicts, `None`, and other objects
(represented by `int`). -/
inductive PyValue where
  | str (s : String)
  | bytes (b : List Nat)
  | ndarray (a : List Nat)
  | dict (d : List (String × PyValue))
  | pyNone
  | int (n : Int)

/-- The `Image` feature descriptor dataclass: mutable storage dtype
(initially `"string"`) plus the behavior-irrelevant `id`. -/
structure Image where
  _storage_dtype : String := "string"
  id : Option String := none
deriving DecidableEq

/-- Factory `Image.__call__`: builds the extension type for the current
storage dtype. -/
def Image.call (self : Image) : ImageExtensionType :=
  mkImageExtensionType self._storage_dtype

/-- Method `Image.encode_example(self, value)`: sets `_storage_dtype` to
`"bytes"` when value is `bytes` or `np.ndarray`, to `"struct"` when value
is a `dict`, leaves it untouched otherwise, and returns `value` unchanged.
The result pairs the updated descriptor (Python mutates `self` in place)
with the returned value. -/
def Image.encode_example (self : Image) (value : PyValue) : Image × PyValue :=
  match value with
  | PyValue.bytes _ => ({ self with _storage_dtype := "bytes" }, value)
  | PyValue.ndarray _ => ({ self with _storage_dtype := "bytes" }, value)
  | PyValue.dict _ => ({ self with _storage_dtype := "struct" }, value)
  | _ => (self, value)

/-- Python exceptions arising in `decode_example` and the collaborators. -/
inductive PyErr where
  | importError
  | resourceUnreadable
  | malformedImage
  | keyError (k : String)
  | typeError
  | unboundLocal
deriving DecidableEq

/-- Resource events recorded while decoding: entering the `with xopen(...)`
block acquires the stream, the call to the codec materializes the image,
leaving the block (on success or on an exception) releases the stream. -/
inductive Event where
  | acquire (path : String)
  | materialize
  | release (path : String)
deriving DecidableEq

/-- In-memory raster image (`PIL.Image.Image`): dimensions, pixel buffer
and format metadata. -/
structure DecodedImage where
  width : Nat
  height : Nat
  pixels : List Nat
  format : String
deriving DecidableEq

/-- Modelled from the spec: the image-codec collaborator (PIL) is external
to the measured source; per the spec it must support a lossless PNG
encoding. The modelled PNG byte stream is a leading magic byte (137, as in
real PNG) followed by width, height and the pixel buffer. -/
def pngEncode (image : DecodedImage) : List Nat :=
  137 :: image.width :: image.height :: image.pixels

/-- Modelled from the spec: codec operation `open(byteStream) → DecodedImage
raises MalformedImage` for the modelled PNG format. -/
def pilOpen (bs : List Nat) : Except PyErr DecodedImage :=
  match bs with
  | m :: w :: h :: rest =>
      if m = 137 then
        Except.ok { width := w, height := h, pixels := rest, format := "PNG" }
      else Except.error PyErr.malformedImage
  | _ => Except.error PyErr.malformedImage

/-- Modelled from the spec: codec operation `save(DecodedImage, byteStream,
format)`, writing the encoded image into the buffer. -/
def pilSave (image : DecodedImage) (buffer : List Nat) (format : String) : List Nat :=
  if format = "PNG" then buffer ++ pngEncode image else buffer

/-- Helper `image_to_bytes(image)`: fresh `BytesIO` buffer,
`image.save(buffer, format="PNG")`, then `buffer.getvalue()`. -/
def image_to_bytes (image : DecodedImage) : List Nat :=
  pilSave image [] "PNG"

/-- Helper `encode_list_of_images(images)`: list comprehension applying
`image_to_bytes` to each element. -/
def encode_list_of_images (images : List DecodedImage) : List (List Nat) :=
  images.map image_to_bytes

/-- Python dict subscription `value[k]`: the value under the key, or a
`KeyError` when the key is absent. -/
def dictGetItem (d : List (String × PyValue)) (k : String) : Except PyErr PyValue :=
  match List.lookup k d with
  | some v => Except.ok v
  | none => Except.error (PyErr.keyError k)

/-- Construction `BytesIO(v)`: succeeds on a bytes-like object, raises
`TypeError` on anything else (including `None`). -/
def mkBytesIO (v : PyValue) : Except PyErr (List Nat) :=
  match v with
  | PyValue.bytes b => Except.ok b
  | _ => Except.error PyErr.typeError

/-- Method `Image.decode_example(self, value)` (it does not read `self`).
Parameters model the collaborators: `pilAvailable` is whether
`import PIL.Image` succeeds; `xopen` is the file-opening collaborator
(`none` models a raised open failure); `pilImageOpen` is the codec's
`PIL.Image.open`. The string branch runs inside `with xopen(value, "rb")`,
so the stream release happens on every exit from the block; the result is
paired with the trace of resource events. A value that matches none of the
`isinstance` branches leaves the local `image` unassigned, so `return
image` raises `UnboundLocalError`. -/
def decode_example (pilAvailable : Bool)
    (xopen : String → Option (List Nat))
    (pilImageOpen : List Nat → Except PyErr DecodedImage)
    (value : PyValue) : Except PyErr DecodedImage × List Event :=
  if pilAvailable then
    match value with
    | PyValue.str s =>
        match xopen s with
        | none => (Except.error PyErr.resourceUnreadable, [])
        | some f =>
            (pilImageOpen f, [Event.acquire s, Event.materialize, Event.release s])
    | PyValue.bytes b => (pilImageOpen b, [])
    | PyValue.dict d =>
        match dictGetItem d "bytes" with
        | Except.error e => (Except.error e, [])
        | Except.ok item =>
            match mkBytesIO item with
            | Except.error e => (Except.error e, [])
            | Except.ok b => (pilImageOpen b, [])
    | _ => (Except.error PyErr.unboundLocal, [])
  else (Except.error PyErr.importError, [])

/-- Shapes of input the `decode_example` dispatch recognizes: strings,
bytes and dicts. -/
def handledShape : PyValue → Bool
  | PyValue.str _ => true
  | PyValue.bytes _ => true
  | PyValue.dict _ => true
  | _ => false

/-- C1: for every decoded image `i`, decoding the bytes produced by
`image_to_bytes i` through `decode_example` yields an image with pixel
content (width, height, pixel buffer) identical to `i`; the PNG round-trip
is lossless. -/
theorem png_roundtrip_lossless (xopen : String → Option (List Nat)) (i : DecodedImage) :
    (decode_example true xopen pilOpen (PyValue.bytes (image_to_bytes i))).1
      = Except.ok { width := i.width, height := i.height, pixels := i.pixels, format := "PNG" } := by
  simp [decode_example, image_to_bytes, pilSave, pngEncode, pilOpen]

/-- C2: for every string input to `decode_example`, the byte stream from the
file-opening collaborator is acquired in a scoped manner: either no stream
was ever obtained (the codec import failed or `xopen` itself failed, and
the trace is empty), or the trace is exactly acquire, materialize, release —
so the stream is released on every exit path, including when the codec
raises, and only after the image-materialization step. -/
theorem decode_string_scoped_stream (avail : Bool)
    (xopen : String → Option (List Nat))
    (po : List Nat → Except PyErr DecodedImage) (s : String) :
    ((decode_example avail xopen po (PyValue.str s)).2
        = [Event.acquire s, Event.materialize, Event.release s]
      ∧ avail = true ∧ (xopen s).isSome = true)
    ∨ ((decode_example avail xopen po (PyValue.str s)).2 = []
      ∧ (avail = false ∨ xopen s = none)) := by
  cases avail with
  | false => exact Or.inr ⟨by simp [decode_example], Or.inl rfl⟩
  | true =>
      cases h : xopen s with
      | none => exact Or.inr ⟨by simp [decode_example, h], Or.inr rfl⟩
      | some f => exact Or.inl ⟨by simp [decode_example, h], rfl, by simp [h]⟩

/-- C3: for every plain string input and every prior descriptor state,
`encode_example` returns the string unchanged and leaves `_storage_dtype`
(indeed the whole descriptor) exactly as it was. -/
theorem encode_string_no_mutation (img : Image) (s : String) :
    Image.encode_example img (PyValue.str s) = (img, PyValue.str s) := rfl

/-- C4: for every bytes input and every prior descriptor state,
`encode_example` returns the bytes unchanged and sets `_storage_dtype`
to `"bytes"`. -/
theorem encode_bytes_sets_raw_bytes (img : Image) (b : List Nat) :
    Image.encode_example img (PyValue.bytes b)
      = ({ img with _storage_dtype := "bytes" }, PyValue.bytes b) := rfl

/-- C5: for every dict input (arbitrary fields, no validation of a `bytes`
field) and every prior descriptor state, `encode_example` returns the
mapping unchanged and sets `_storage_dtype` to `"struct"`. -/
theorem encode_dict_sets_struct (img : Image) (d : List (String × PyValue)) :
    Image.encode_example img (PyValue.dict d)
      = ({ img with _storage_dtype := "struct" }, PyValue.dict d) := rfl

/-- C6: for every dict input whose `bytes` field holds bytes `b`,
`decode_example` hands exactly `b` to the codec and performs no external
input/output: the result is independent of the file-opening collaborator
and of every other field (in particular `path`), and the resource-event
trace is empty. -/
theorem decode_dict_uses_bytes_only (xopen : String → Option (List Nat))
    (po : List Nat → Except PyErr DecodedImage)
    (d : List (String × PyValue)) (b : List Nat)
    (h : List.lookup "bytes" d = some (PyValue.bytes b)) :
    decode_example true xopen po (PyValue.dict d) = (po b, []) := by
  simp [decode_example, dictGetItem, h, mkBytesIO]

/-- Witness for C6 at a concrete record carrying both a path and bytes. -/
theorem decode_dict_uses_bytes_only_witness :
    decode_example true (fun _ => none) pilOpen
        (PyValue.dict [("path", PyValue.str "a.png"), ("bytes", PyValue.bytes [137, 2, 1, 5, 9])])
      = (pilOpen [137, 2, 1, 5, 9], []) :=
  decode_dict_uses_bytes_only (fun _ => none) pilOpen _ _ rfl

/-- C7: for every input that is not a string, not bytes and not a dict,
`decode_example` fails loudly with an error — `UnboundLocalError` from the
unassigned `image` local when the codec import succeeded, `ImportError`
otherwise — and never returns an image or performs any stream activity. -/
theorem decode_unrecognized_raises (avail : Bool)
    (xopen : String → Option (List Nat))
    (po : List Nat → Except PyErr DecodedImage)
    (v : PyValue) (h : handledShape v = false) :
    decode_example avail xopen po v
      = (Except.error (if avail then PyErr.unboundLocal else PyErr.importError), []) := by
  cases avail <;> cases v <;> simp_all [decode_example, handledShape]

/-- Witness for C7 at the concrete input `None`. -/
theorem decode_unrecognized_raises_witness :
    decode_example true (fun _ => none) pilOpen PyValue.pyNone
      = (Except.error (if true then PyErr.unboundLocal else PyErr.importError), []) :=
  decode_unrecognized_raises true (fun _ => none) pilOpen PyValue.pyNone rfl

/-- C8: for every storage dtype, the extension-type wrapper reconstructed
from the `__reduce__` payload (the 1-tuple of the storage dtype alone) is
structurally identical to one constructed directly — same storage dtype,
same physical type, same logical tag — and that tag is `"Image"`; no
hidden state beyond the shape is needed. -/
theorem extension_type_reconstruct_roundtrip (s : String) :
    mkImageExtensionType (ImageExtensionType.reduce (mkImageExtensionType s))
        = mkImageExtensionType s
    ∧ (mkImageExtensionType s).logicalTag = "Image" :=
  ⟨rfl, rfl⟩

/-- C9: for every dict input with no `bytes` key, `decode_example` raises
`KeyError`; with a `bytes` field equal to `None`, `BytesIO(None)` raises
`TypeError`. In both cases it never falls back to opening the `path`
field: the result is independent of the file-opening collaborator and the
resource-event trace is empty. -/
theorem decode_dict_no_bytes_errors (xopen : String → Option (List Nat))
    (po : List Nat → Except PyErr DecodedImage)
    (d : List (String × PyValue)) :
    (List.lookup "bytes" d = none →
      decode_example true xopen po (PyValue.dict d)
        = (Except.error (PyErr.keyError "bytes"), []))
    ∧ (List.lookup "bytes" d = some PyValue.pyNone →
      decode_example true xopen po (PyValue.dict d)
        = (Except.error PyErr.typeError, [])) := by
  constructor
  · intro h
    simp [decode_example, dictGetItem, h]
  · intro h
    simp [decode_example, dictGetItem, h, mkBytesIO]

/-- Witness for C9: a record with only a path raises `KeyError`, a record
whose `bytes` field is `None` raises `TypeError`. -/
theorem decode_dict_no_bytes_errors_witness :
    decode_example true (fun _ => none) pilOpen
        (PyValue.dict [("path", PyValue.str "a.png")])
      = (Except.error (PyErr.keyError "bytes"), [])
    ∧ decode_example true (fun _ => none) pilOpen
        (PyValue.dict [("path", PyValue.str "a.png"), ("bytes", PyValue.pyNone)])
      = (Except.error PyErr.typeError, []) :=
  ⟨(decode_dict_no_bytes_errors (fun _ => none) pilOpen _).1 rfl,
   (decode_dict_no_bytes_errors (fun _ => none) pilOpen _).2 rfl⟩

/-- C10: for every numpy array input and every prior descriptor state,
`encode_example` sets `_storage_dtype` to `"bytes"` and returns the array
object itself unchanged, without converting it into encoded image bytes. -/
theorem encode_ndarray_passthrough (img : Image) (a : List Nat) :
    Image.encode_example img (PyValue.ndarray a)
      = ({ img with _storage_dtype := "bytes" }, PyValue.ndarray a) := rfl

end Datasets
